import Mathlib

/-!
Verification of the GeoVerse authentication and identity-resolution core:
a shallow embedding of the user model (`models/user.js`), the passport
Google-strategy verify callback (`config/passport.js`), the auth routes
(`routes/authRoutes.js`) and the protected data routes
(`routes/dataRoutes.js`), together with theorems about identity
resolution, the token lifecycle and the authorization gate.

Conventions of the embedding:
* timestamps are `Nat` milliseconds; `now` is passed explicitly where the
  JavaScript calls `new Date()` / `Date.now()`;
* a JSON web token is a record carrying its payload, its `exp` claim and
  the secret that signed it; a signature verifies under secret `s` exactly
  when the token was signed with `s`;
* the jsonwebtoken library validates the signature before it checks the
  `exp` claim, so `TokenExpiredError` is only ever thrown for
  signature-valid tokens; `jwtVerify` mirrors that order;
* the Mongo user collection is a `List User`; `findOne`/`findById` are
  `List.find?`; `save` rewrites the document with the matching `_id`;
* an HTTP error response is abstracted to its status and its stable
  machine-readable `code` field.
-/

namespace GeoVerse

/-! ## Data model (`models/user.js`) -/

/-- One entry of the `providers` array (oauthProviderSchema). -/
structure ProviderLink where
  provider : String
  providerId : String
  email : String
  name : String
  picture : Option String
  verified : Bool
  lastLogin : Nat
deriving Repr, DecidableEq

/-- A signed JSON web token: payload (`id`, `email`, `displayName`),
the `exp` claim, and the secret that produced the signature. -/
structure Jwt where
  id : Nat
  email : String
  displayName : String
  exp : Nat
  secret : Nat
deriving Repr, DecidableEq

/-- One entry of the `tokens` array of the user schema; `type` is
`"access"` or `"refresh"`. -/
structure StoredToken where
  token : Jwt
  type : String
  expiresAt : Nat
deriving Repr, DecidableEq

/-- The `stats` subdocument of the user schema, with its schema defaults. -/
structure UserStats where
  totalRecords : Nat
  totalCities : Nat
  totalCountries : Nat
  lastRecordDate : Option Nat
  favoriteCities : List (String × Nat)
  favoriteCountries : List (String × Nat)
deriving Repr, DecidableEq

/-- A document of the `users` collection. -/
structure User where
  id : Nat
  email : String
  displayName : String
  profilePicture : Option String
  providers : List ProviderLink
  records : List Nat
  stats : UserStats
  status : String
  tokens : List StoredToken
  accountCreated : Nat
  lastActive : Nat
deriving Repr, DecidableEq

/-- Environment configuration: `JWT_SECRET`, `JWT_REFRESH_SECRET`, the two
expiry windows and the application `API_KEY`. -/
structure AuthConfig where
  jwtSecret : Nat
  jwtRefreshSecret : Nat
  accessExpiresIn : Nat
  refreshExpiresIn : Nat
  apiKey : String
deriving Repr, DecidableEq

/-- An HTTP error/success response, abstracted to its status and its
machine-readable `code`. -/
structure ApiResponse where
  status : Nat
  code : String
deriving Repr, DecidableEq

/-! ## JWT primitives (jsonwebtoken) -/

/-- Failure modes of `jwt.verify`: `TokenExpiredError` or a generic
`JsonWebTokenError` (wrong signature, malformed token). -/
inductive JwtError where
  | expired
  | invalidSignature
deriving Repr, DecidableEq

/-- Model of `jwt.verify(token, secret)` evaluated at clock `now`.
The library verifies the signature first and only then compares
`now` against the `exp` claim (expired when `now ≥ exp`). -/
def jwtVerify (t : Jwt) (secret : Nat) (now : Nat) : Except JwtError Jwt :=
  if t.secret ≠ secret then .error .invalidSignature
  else if t.exp ≤ now then .error .expired
  else .ok t

/-! ## Token service (`routes/authRoutes.js`) -/

/-- The `generateTokens` function: signs the payload
`{id, email, displayName}` with `JWT_SECRET` for the access token and
with `JWT_REFRESH_SECRET` for the refresh token. -/
def generateTokens (cfg : AuthConfig) (user : User) (now : Nat) : Jwt × Jwt :=
  ({ id := user.id, email := user.email, displayName := user.displayName,
     exp := now + cfg.accessExpiresIn, secret := cfg.jwtSecret },
   { id := user.id, email := user.email, displayName := user.displayName,
     exp := now + cfg.refreshExpiresIn, secret := cfg.jwtRefreshSecret })

/-! ## Credential store operations -/

/-- Mongoose `User.findById`. -/
def findById (store : List User) (uid : Nat) : Option User :=
  store.find? (fun u => u.id == uid)

/-- Mongoose `User.findOne({email})`. -/
def findOneByEmail (store : List User) (em : String) : Option User :=
  store.find? (fun u => u.email == em)

/-- The `findByOAuthProvider` static: a user holding a `providers` entry
matching both the provider name and the provider subject id. -/
def findByOAuthProvider (store : List User) (provider providerId : String) :
    Option User :=
  store.find? (fun u =>
    u.providers.any (fun p => p.provider == provider && p.providerId == providerId))

/-- Persist a modified document: replace the stored document carrying the
same `_id`. -/
def saveUser (store : List User) (u : User) : List User :=
  store.map (fun v => if v.id == u.id then u else v)

/-! ## Authentication middleware -/

/-- The `authenticateToken` middleware of `routes/authRoutes.js`: requires
a bearer token, verifies it with `JWT_SECRET`, loads the user and requires
status `active`. On success the request proceeds with the loaded user. -/
def authenticateToken (store : List User) (cfg : AuthConfig) (now : Nat)
    (authToken : Option Jwt) : Except ApiResponse User :=
  match authToken with
  | none => .error ⟨401, "MISSING_TOKEN"⟩
  | some token =>
    match jwtVerify token cfg.jwtSecret now with
    | .error .expired => .error ⟨401, "TOKEN_EXPIRED"⟩
    | .error .invalidSignature => .error ⟨403, "TOKEN_VERIFICATION_FAILED"⟩
    | .ok decoded =>
      match findById store decoded.id with
      | none => .error ⟨401, "INVALID_TOKEN"⟩
      | some user =>
        if user.status == "active" then .ok user
        else .error ⟨401, "INVALID_TOKEN"⟩

/-- The `validateOAuthToken` middleware of `routes/dataRoutes.js`; its
body is the same check as `authenticateToken`. -/
def validateOAuthToken (store : List User) (cfg : AuthConfig) (now : Nat)
    (authToken : Option Jwt) : Except ApiResponse User :=
  match authToken with
  | none => .error ⟨401, "MISSING_TOKEN"⟩
  | some token =>
    match jwtVerify token cfg.jwtSecret now with
    | .error .expired => .error ⟨401, "TOKEN_EXPIRED"⟩
    | .error .invalidSignature => .error ⟨403, "TOKEN_VERIFICATION_FAILED"⟩
    | .ok decoded =>
      match findById store decoded.id with
      | none => .error ⟨401, "INVALID_TOKEN"⟩
      | some user =>
        if user.status == "active" then .ok user
        else .error ⟨401, "INVALID_TOKEN"⟩

/-! ## Identity resolver (`config/passport.js`, GoogleStrategy verify callback) -/

/-- Whether a `providers` entry is the Google link with the given subject
id — the predicate of the callback's `findIndex`. -/
def isGoogleLink (providerId : String) (p : ProviderLink) : Bool :=
  p.provider == "google" && p.providerId == providerId

/-- Update the `lastLogin` of the first matching Google link, the way the
callback writes `user.providers[providerIndex].lastLogin = new Date()`. -/
def updateGoogleLastLogin (ps : List ProviderLink) (providerId : String)
    (now : Nat) : List ProviderLink :=
  match ps with
  | [] => []
  | p :: rest =>
    if isGoogleLink providerId p then { p with lastLogin := now } :: rest
    else p :: updateGoogleLastLogin rest providerId now

/-- The document as it stands after the returning-user branch saved it:
the matching link's `lastLogin` stamped, and `lastActive` refreshed by the
pre-save middleware (the document is modified and not new). -/
def touchGoogleLogin (u : User) (providerId : String) (now : Nat) : User :=
  { u with providers := updateGoogleLastLogin u.providers providerId now,
           lastActive := now }

/-- The new `providers` entry pushed by the linking branch and by the
new-user branch (`verified: true`, `lastLogin: new Date()`). -/
def mkGoogleLink (providerId em nm : String) (pic : Option String)
    (now : Nat) : ProviderLink :=
  { provider := "google", providerId := providerId, email := em, name := nm,
    picture := pic, verified := true, lastLogin := now }

/-- The schema defaults of the `stats` subdocument on a fresh document. -/
def zeroStats : UserStats :=
  { totalRecords := 0, totalCities := 0, totalCountries := 0,
    lastRecordDate := none, favoriteCities := [], favoriteCountries := [] }

/-- The document built by `new User({...})` in the create branch: status
`active`, exactly the one Google provider link, schema defaults
everywhere else. -/
def newGoogleUser (freshId : Nat) (providerId em nm : String)
    (pic : Option String) (now : Nat) : User :=
  { id := freshId, email := em, displayName := nm, profilePicture := pic,
    providers := [mkGoogleLink providerId em nm pic now],
    records := [], stats := zeroStats, status := "active", tokens := [],
    accountCreated := now, lastActive := now }

/-- Outcome handed to `done`: `done(null, user, {isNewUser})` or
`done(error, null)`. -/
inductive ResolveResult where
  | ok (user : User) (isNewUser : Bool)
  | err
deriving Repr, DecidableEq

/-- The GoogleStrategy verify callback of `config/passport.js`, run
against a store snapshot. Step 1: look up by (google, profile.id) and
stamp that link's last login. Step 2: look up by asserted email and push
a new link. Step 3: create a fresh document with status `active`.
`freshId` is the `_id` Mongo assigns to the new document. -/
def googleVerify (store : List User) (now freshId : Nat)
    (profileId em nm : String) (pic : Option String) :
    List User × ResolveResult :=
  match findByOAuthProvider store "google" profileId with
  | some user =>
    if user.providers.any (isGoogleLink profileId) then
      let user' := touchGoogleLogin user profileId now
      (saveUser store user', .ok user' false)
    else
      (store, .ok user false)
  | none =>
    match findOneByEmail store em with
    | some existingUser =>
      let user' := { existingUser with
        providers := existingUser.providers ++ [mkGoogleLink profileId em nm pic now],
        lastActive := now }
      (saveUser store user', .ok user' false)
    | none =>
      let newUser := newGoogleUser freshId profileId em nm pic now
      (store ++ [newUser], .ok newUser true)

/-- The verify callback under a lost creation race: steps 1 and 2 query
the snapshot `storeLookup`, but by the time step 3 saves, the collection
is `storeSave` (another resolver instance may have inserted the same
email). The unique index on `email` rejects the insert with a
duplicate-key error, which the callback's catch block surfaces as
`done(error, null)`; there is no retry. -/
def googleVerifyRaced (storeLookup storeSave : List User) (now freshId : Nat)
    (profileId em nm : String) (pic : Option String) :
    List User × ResolveResult :=
  match findByOAuthProvider storeLookup "google" profileId with
  | some user =>
    if user.providers.any (isGoogleLink profileId) then
      let user' := touchGoogleLogin user profileId now
      (saveUser storeSave user', .ok user' false)
    else
      (storeSave, .ok user false)
  | none =>
    match findOneByEmail storeLookup em with
    | some existingUser =>
      let user' := { existingUser with
        providers := existingUser.providers ++ [mkGoogleLink profileId em nm pic now],
        lastActive := now }
      (saveUser storeSave user', .ok user' false)
    | none =>
      if storeSave.any (fun v => v.email == em) then
        (storeSave, .err)
      else
        (storeSave ++ [newGoogleUser freshId profileId em nm pic now], .ok (newGoogleUser freshId profileId em nm pic now) true)

/-! ## Refresh and logout (`routes/authRoutes.js`) -/

/-- Outcome of `POST /auth/refresh`: a new access token (with the store
after `updateLastActive`), or an error response. -/
inductive RefreshOutcome where
  | issued (accessToken : Jwt) (store : List User)
  | failed (resp : ApiResponse)
deriving Repr, DecidableEq

/-- The handler of `POST /auth/refresh`: requires a body token, verifies
it with `JWT_REFRESH_SECRET` (expiry → 401 `REFRESH_TOKEN_EXPIRED`, any
other verification failure → the 500 `TOKEN_REFRESH_ERROR` catch-all),
then looks the user up with
`findOne({_id, 'tokens.token', 'tokens.type', 'tokens.expiresAt': {$gt}})`.
The dotted paths carry no `$elemMatch`, so MongoDB satisfies each of the
three array conditions by *some* `tokens` element, not necessarily the
same one. A miss, or a non-`active` account, answers 401
`INVALID_REFRESH_TOKEN`; otherwise a fresh access token is issued and
`lastActive` stamped. -/
def authRefresh (store : List User) (cfg : AuthConfig) (now : Nat)
    (body : Option Jwt) : RefreshOutcome :=
  match body with
  | none => .failed ⟨400, "MISSING_REFRESH_TOKEN"⟩
  | some rt =>
    match jwtVerify rt cfg.jwtRefreshSecret now with
    | .error .expired => .failed ⟨401, "REFRESH_TOKEN_EXPIRED"⟩
    | .error .invalidSignature => .failed ⟨500, "TOKEN_REFRESH_ERROR"⟩
    | .ok decoded =>
      match store.find? (fun u =>
          u.id == decoded.id
            && u.tokens.any (fun e => e.token == rt)
            && u.tokens.any (fun e => e.type == "refresh")
            && u.tokens.any (fun e => now < e.expiresAt)) with
      | none => .failed ⟨401, "INVALID_REFRESH_TOKEN"⟩
      | some user =>
        if user.status == "active" then
          .issued (generateTokens cfg user now).1
            (saveUser store { user with lastActive := now })
        else
          .failed ⟨401, "INVALID_REFRESH_TOKEN"⟩

/-- The `$set: { tokens: [] }` update applied to the document with the
matching `_id`. -/
def clearAllTokens (userId : Nat) (u : User) : User :=
  if u.id == userId then { u with tokens := [] } else u

/-- The body of `POST /auth/logout` after `authenticateToken` succeeded
for `userId`: with a body refresh token, `$pull` the matching refresh
entries; without one, `$set` the whole `tokens` array to `[]`. The
returned flag is the `success` field of the JSON response. -/
def logoutHandler (store : List User) (userId : Nat) (body : Option Jwt) :
    List User × Bool :=
  match body with
  | some rt =>
    (store.map (fun u =>
      if u.id == userId then
        let kept := u.tokens.filter (fun e => !(e.token == rt && e.type == "refresh"))
        { u with tokens := kept }
      else u), true)
  | none =>
    (store.map (clearAllTokens userId), true)

/-! ## Protected data pipeline (`routes/dataRoutes.js`) -/

/-- The `weather` object of the request body; `none` in a field models a
missing or null JSON value. Scalar payloads are irrelevant to control
flow and abstracted to `Nat`/`String`. -/
structure WeatherData where
  city : Option String
  country : Option String
  temperature : Option Int
  feels_like : Option Int
  humidity : Option Nat
  pressure : Option Nat
  wind_speed : Option Nat
  visibility : Option Nat
  cloudiness : Option Nat
  description : Option String
  icon : Option String
deriving Repr, DecidableEq

/-- The `country` object of the request body. -/
structure CountryData where
  name : Option String
  population : Option Nat
  area : Option Nat
  region : Option String
  languages : Option (List String)
  currencies : Option (List String)
  timezones : Option (List String)
  flag : Option String
deriving Repr, DecidableEq

/-- A `POST /api/records` request body. -/
structure RecordBody where
  weather : Option WeatherData
  country : Option CountryData
deriving Repr, DecidableEq

/-- The first missing required weather field, in the order the
`requiredWeatherFields` loop checks them. -/
def weatherFieldMissing (w : WeatherData) : Option String :=
  if w.city.isNone then some "city"
  else if w.country.isNone then some "country"
  else if w.temperature.isNone then some "temperature"
  else if w.feels_like.isNone then some "feels_like"
  else if w.humidity.isNone then some "humidity"
  else if w.pressure.isNone then some "pressure"
  else if w.wind_speed.isNone then some "wind_speed"
  else if w.visibility.isNone then some "visibility"
  else if w.cloudiness.isNone then some "cloudiness"
  else if w.description.isNone then some "description"
  else if w.icon.isNone then some "icon"
  else none

/-- The first missing required country field, in the order the
`requiredCountryFields` loop checks them. -/
def countryFieldMissing (c : CountryData) : Option String :=
  if c.name.isNone then some "name"
  else if c.population.isNone then some "population"
  else if c.area.isNone then some "area"
  else if c.region.isNone then some "region"
  else if c.languages.isNone then some "languages"
  else if c.currencies.isNone then some "currencies"
  else if c.timezones.isNone then some "timezones"
  else if c.flag.isNone then some "flag"
  else none

/-- The `validateInputData` middleware: presence of `weather` and
`country`, the two required-field loops, then the non-empty array checks
on `languages`, `currencies` and `timezones`. -/
def validateInputData (body : RecordBody) : Except ApiResponse Unit :=
  match body.weather, body.country with
  | none, _ => .error ⟨400, "MISSING_REQUIRED_FIELDS"⟩
  | some _, none => .error ⟨400, "MISSING_REQUIRED_FIELDS"⟩
  | some w, some c =>
    match weatherFieldMissing w with
    | some _ => .error ⟨400, "MISSING_WEATHER_FIELD"⟩
    | none =>
      match countryFieldMissing c with
      | some _ => .error ⟨400, "MISSING_COUNTRY_FIELD"⟩
      | none =>
        if (c.languages.getD []).isEmpty then
          .error ⟨400, "INVALID_LANGUAGES_ARRAY"⟩
        else if (c.currencies.getD []).isEmpty then
          .error ⟨400, "INVALID_CURRENCIES_ARRAY"⟩
        else if (c.timezones.getD []).isEmpty then
          .error ⟨400, "INVALID_TIMEZONES_ARRAY"⟩
        else .ok ()

/-- The `dataLimiter` (express-rate-limit, `max: 100` per window):
`hits` counts this caller's requests in the current window, this request
included. -/
def dataLimiterCheck (hits : Nat) : Except ApiResponse Unit :=
  if 100 < hits then .error ⟨429, "RATE_LIMIT_EXCEEDED"⟩ else .ok ()

/-- The `validateApiKey` middleware: missing `x-api-key` → 401
`MISSING_API_KEY`; mismatch with the configured `API_KEY` → 403
`INVALID_API_KEY`. -/
def validateApiKey (provided : Option String) (expected : String) :
    Except ApiResponse Unit :=
  match provided with
  | none => .error ⟨401, "MISSING_API_KEY"⟩
  | some k => if k ≠ expected then .error ⟨403, "INVALID_API_KEY"⟩ else .ok ()

/-- The middleware chain of `POST /api/records` in declaration order:
`dataLimiter`, `validateApiKey`, `validateOAuthToken`,
`validateInputData`. Each failing stage responds immediately, so the
chain short-circuits; on success the handler runs with the resolved
user. -/
def postRecordsPipeline (store : List User) (cfg : AuthConfig) (now : Nat)
    (hits : Nat) (apiKeyHeader : Option String) (authToken : Option Jwt)
    (body : RecordBody) : Except ApiResponse User := do
  let _ ← dataLimiterCheck hits
  let _ ← validateApiKey apiKeyHeader cfg.apiKey
  let user ← validateOAuthToken store cfg now authToken
  let _ ← validateInputData body
  pure user

/-! ## Record references (`userSchema.methods.addRecord`) -/

/-- The `addRecord` instance method: a no-op when the record id is
already referenced; otherwise push the id, bump `stats.totalRecords`,
stamp `stats.lastRecordDate` and save (the pre-save middleware refreshes
`lastActive`). -/
def addRecord (u : User) (recordId : Nat) (now : Nat) : User :=
  if u.records.contains recordId then u
  else
    { u with records := u.records ++ [recordId],
             stats := { u.stats with
               totalRecords := u.stats.totalRecords + 1,
               lastRecordDate := some now },
             lastActive := now }

deriving instance DecidableEq for Except

/-! ## Concrete fixtures used by the closed instances below -/

/-- A sample environment: distinct access and refresh secrets, the
default 15-minute and 7-day windows in milliseconds. -/
def sampleCfg : AuthConfig :=
  { jwtSecret := 1, jwtRefreshSecret := 2, accessExpiresIn := 900000,
    refreshExpiresIn := 604800000, apiKey := "app-key" }

/-- A sample active account created through a Google login. -/
def sampleUser : User :=
  { id := 7, email := "a@x.com", displayName := "Alice",
    profilePicture := none,
    providers := [mkGoogleLink "g1" "a@x.com" "Alice" none 0],
    records := [], stats := zeroStats, status := "active", tokens := [],
    accountCreated := 0, lastActive := 0 }

/-- The sample account with one persisted refresh token. -/
def sampleTokUser : User :=
  { sampleUser with tokens :=
      [{ token := (generateTokens sampleCfg sampleUser 0).2,
         type := "refresh", expiresAt := 604800000 }] }

/-- A sample suspended account. -/
def sampleSuspendedUser : User :=
  { sampleUser with id := 8, email := "b@x.com", status := "suspended" }

/-- A sample request body with both payload objects absent. -/
def emptyBody : RecordBody := { weather := none, country := none }

/-- A refresh-signed token whose own stored record (below) has already
expired. -/
def staleRefreshJwt : Jwt :=
  { id := 7, email := "a@x.com", displayName := "Alice",
    exp := 9000, secret := 2 }

/-- A second, distinct refresh-signed token for the same account. -/
def freshRefreshJwt : Jwt :=
  { id := 7, email := "a@x.com", displayName := "Alice",
    exp := 9999, secret := 2 }

/-- The sample account holding two refresh records: the one for
`staleRefreshJwt` already expired, the one for `freshRefreshJwt` still
live. -/
def twoRecordUser : User :=
  { sampleUser with tokens :=
      [ { token := staleRefreshJwt, type := "refresh", expiresAt := 500 },
        { token := freshRefreshJwt, type := "refresh", expiresAt := 2000 } ] }

/-! ## Helper lemmas -/

theorem jwtVerify_eq_ok {t : Jwt} {s now : Nat} {d : Jwt}
    (h : jwtVerify t s now = .ok d) :
    d = t ∧ t.secret = s ∧ now < t.exp := by
  unfold jwtVerify at h
  split at h
  · exact absurd h (by simp)
  · split at h
    · exact absurd h (by simp)
    · refine ⟨by injection h with h'; exact h'.symm, by omega, by omega⟩

theorem jwtVerify_ok_self {t : Jwt} {s now : Nat}
    (h1 : t.secret = s) (h2 : now < t.exp) :
    jwtVerify t s now = .ok t := by
  unfold jwtVerify
  rw [if_neg (by simp [h1]), if_neg (by omega)]

theorem updateGoogleLastLogin_find? (ps : List ProviderLink) (pid : String)
    (now : Nat) (h : ps.any (isGoogleLink pid) = true) :
    ((updateGoogleLastLogin ps pid now).find? (isGoogleLink pid)).map
      ProviderLink.lastLogin = some now := by
  induction ps with
  | nil => simp at h
  | cons p rest ih =>
    by_cases hp : isGoogleLink pid p = true
    · have hp' : isGoogleLink pid { p with lastLogin := now } = true := hp
      simp [updateGoogleLastLogin, hp, List.find?_cons, hp']
    · simp only [List.any_cons, hp, Bool.false_or] at h
      simp [updateGoogleLastLogin, hp, List.find?_cons, ih h]

theorem find?_map_of_pred_comm {α : Type} (l : List α) (f : α → α)
    (p : α → Bool) (hf : ∀ a, p (f a) = p a) :
    (l.map f).find? p = (l.find? p).map f := by
  induction l with
  | nil => rfl
  | cons a rest ih =>
    by_cases hp : p a = true
    · simp [List.find?_cons, hf, hp]
    · simp only [Bool.not_eq_true] at hp
      simp [List.find?_cons, hf, hp, ih]

theorem clearAllTokens_pred (uid : Nat) (u : User) :
    ((clearAllTokens uid u).id == uid) = (u.id == uid) := by
  unfold clearAllTokens
  by_cases h : u.id == uid <;> simp [h]

theorem clearAllTokens_idem (uid : Nat) (u : User) :
    clearAllTokens uid (clearAllTokens uid u) = clearAllTokens uid u := by
  unfold clearAllTokens
  by_cases h : u.id == uid <;> simp [h]

/-! ## Claim theorems -/

/-- C5: for every account whose status is `active`, issuing a token pair
with `generateTokens` and immediately verifying the returned access token
with the `authenticateToken` middleware succeeds and resolves to the very
account the token was issued for. -/
theorem issue_verifyAccess_roundtrip (store : List User) (cfg : AuthConfig)
    (now : Nat) (u : User)
    (hfind : findById store u.id = some u)
    (hactive : u.status = "active")
    (hdur : 0 < cfg.accessExpiresIn) :
    authenticateToken store cfg now (some (generateTokens cfg u now).1) = .ok u := by
  have hexp : ¬ (now + cfg.accessExpiresIn ≤ now) := by omega
  simp [authenticateToken, generateTokens, jwtVerify, hexp, hfind, hactive]

/-- C5 witness: the round trip at a concrete store, account and clock. -/
theorem issue_verifyAccess_roundtrip_witness :
    authenticateToken [sampleUser] sampleCfg 1000
      (some (generateTokens sampleCfg sampleUser 1000).1) = .ok sampleUser :=
  issue_verifyAccess_roundtrip [sampleUser] sampleCfg 1000 sampleUser
    (by decide) (by decide) (by decide)

/-- C6 counterexample: a token whose `exp` lies in the past but whose
signature does not verify fails with 403 `TOKEN_VERIFICATION_FAILED`,
not with the Expired kind — refuting "regardless of whether the token's
signature is valid". -/
theorem verifyAccess_expired_bad_signature_not_expired_kind :
    authenticateToken [] sampleCfg 1000
      (some { id := 7, email := "a@x.com", displayName := "Alice",
              exp := 500, secret := 99 })
      = .error ⟨403, "TOKEN_VERIFICATION_FAILED"⟩
    ∧ (⟨403, "TOKEN_VERIFICATION_FAILED"⟩ : ApiResponse) ≠ ⟨401, "TOKEN_EXPIRED"⟩ := by
  decide

/-- C6 amended: a past-expiry access token whose signature verifies fails
both verification middlewares with the Expired kind 401 `TOKEN_EXPIRED`;
a token whose signature does not verify fails with the distinct kind 403
`TOKEN_VERIFICATION_FAILED` whatever its expiry. -/
theorem verifyAccess_expired_vs_invalid (store : List User)
    (cfg : AuthConfig) (now : Nat) (t : Jwt) :
    (t.secret = cfg.jwtSecret → t.exp ≤ now →
      authenticateToken store cfg now (some t) = .error ⟨401, "TOKEN_EXPIRED"⟩
      ∧ validateOAuthToken store cfg now (some t) = .error ⟨401, "TOKEN_EXPIRED"⟩)
    ∧ (t.secret ≠ cfg.jwtSecret →
      authenticateToken store cfg now (some t)
        = .error ⟨403, "TOKEN_VERIFICATION_FAILED"⟩
      ∧ validateOAuthToken store cfg now (some t)
        = .error ⟨403, "TOKEN_VERIFICATION_FAILED"⟩) := by
  constructor
  · intro hsig hexp
    constructor <;> simp [authenticateToken, validateOAuthToken, jwtVerify, hsig, hexp]
  · intro hsig
    constructor <;> simp [authenticateToken, validateOAuthToken, jwtVerify, hsig]

/-- C6 amended witness: both branches evaluated at concrete tokens. -/
theorem verifyAccess_expired_vs_invalid_witness :
    authenticateToken [] sampleCfg 1000
      (some { id := 7, email := "a@x.com", displayName := "Alice",
              exp := 500, secret := 1 })
      = .error ⟨401, "TOKEN_EXPIRED"⟩ :=
  ((verifyAccess_expired_vs_invalid [] sampleCfg 1000
      { id := 7, email := "a@x.com", displayName := "Alice",
        exp := 500, secret := 1 }).1 (by decide) (by decide)).1

/-- C8 counterexample: an access token (signed with `JWT_SECRET`)
presented to `POST /auth/refresh` falls into the 500
`TOKEN_REFRESH_ERROR` catch-all, not the 401 `INVALID_REFRESH_TOKEN`
kind the claim names. -/
theorem refresh_access_token_hits_catch_all :
    authRefresh [sampleTokUser] sampleCfg 1000
      (some (generateTokens sampleCfg sampleUser 1000).1)
      = .failed ⟨500, "TOKEN_REFRESH_ERROR"⟩
    ∧ (⟨500, "TOKEN_REFRESH_ERROR"⟩ : ApiResponse)
        ≠ ⟨401, "INVALID_REFRESH_TOKEN"⟩ := by
  decide

/-- C8 amended: a token whose signature does not verify under the
refresh secret — in particular any access token, the two secrets being
distinct — makes `POST /auth/refresh` fail with the 500
`TOKEN_REFRESH_ERROR` catch-all response and never yields an issued
token. -/
theorem refresh_invalid_signature_never_issues (store : List User)
    (cfg : AuthConfig) (now : Nat) (t : Jwt) (u : User) :
    (t.secret ≠ cfg.jwtRefreshSecret →
      authRefresh store cfg now (some t) = .failed ⟨500, "TOKEN_REFRESH_ERROR"⟩)
    ∧ (cfg.jwtSecret ≠ cfg.jwtRefreshSecret →
      authRefresh store cfg now (some (generateTokens cfg u now).1)
        = .failed ⟨500, "TOKEN_REFRESH_ERROR"⟩) := by
  constructor
  · intro hsig
    simp [authRefresh, jwtVerify, hsig]
  · intro hne
    simp [authRefresh, jwtVerify, generateTokens, hne]

/-- C8 amended witness: the refusal evaluated at a concrete store and
access token. -/
theorem refresh_invalid_signature_never_issues_witness :
    authRefresh [sampleTokUser] sampleCfg 1000
      (some (generateTokens sampleCfg sampleUser 1000).1)
      = .failed ⟨500, "TOKEN_REFRESH_ERROR"⟩ :=
  (refresh_invalid_signature_never_issues [sampleTokUser] sampleCfg 1000
    (generateTokens sampleCfg sampleUser 1000).1 sampleUser).2 (by decide)

/-- C2 counterexample: `POST /auth/refresh` with `staleRefreshJwt`
issues a new access token even though no single stored record of the
account matches (this token, kind `refresh`, unexpired) together — the
record holding the token string is expired and only a different record
satisfies the `$gt` expiry condition — refuting "a new access token is
issued only when such a persisted record exists [and] the record is
unexpired". -/
theorem refresh_issues_despite_expired_record :
    authRefresh [twoRecordUser] sampleCfg 1000 (some staleRefreshJwt)
      = .issued (generateTokens sampleCfg twoRecordUser 1000).1
          (saveUser [twoRecordUser] { twoRecordUser with lastActive := 1000 })
    ∧ twoRecordUser.tokens.any (fun e =>
        e.token == staleRefreshJwt && e.type == "refresh"
          && decide (1000 < e.expiresAt)) = false := by
  decide

/-- C2 amended: a refresh token whose signature verifies but whose token
string appears in no stored record of the decoded account (e.g. the
record was deleted by revocation) makes `POST /auth/refresh` fail with
the record-absent kind 401 `INVALID_REFRESH_TOKEN` and never issues a
token; conversely a token is issued only when the decoded account is
`active` and its stored records contain the token string in some record,
kind `refresh` in some record, and an unexpired expiry in some record —
the query's dotted paths carry no `$elemMatch`, so these need not be the
same record and the token's own record may already be expired. -/
theorem refresh_requires_some_stored_token (store : List User)
    (cfg : AuthConfig) (now : Nat) (rt : Jwt) :
    (rt.secret = cfg.jwtRefreshSecret → now < rt.exp →
      (∀ u ∈ store, u.id = rt.id → ∀ e ∈ u.tokens, e.token ≠ rt) →
      authRefresh store cfg now (some rt) = .failed ⟨401, "INVALID_REFRESH_TOKEN"⟩)
    ∧ (∀ tok store', authRefresh store cfg now (some rt) = .issued tok store' →
        ∃ u ∈ store, u.id = rt.id ∧ u.status = "active"
          ∧ (∃ e ∈ u.tokens, e.token = rt)
          ∧ (∃ e ∈ u.tokens, e.type = "refresh")
          ∧ (∃ e ∈ u.tokens, now < e.expiresAt)) := by
  constructor
  · intro hsig hexp habs
    have hok := jwtVerify_ok_self hsig hexp
    have hnone : store.find? (fun u =>
        u.id == rt.id
          && u.tokens.any (fun e => e.token == rt)
          && u.tokens.any (fun e => e.type == "refresh")
          && u.tokens.any (fun e => now < e.expiresAt)) = none := by
      rw [List.find?_eq_none]
      intro u hu hcontra
      rw [Bool.and_eq_true, Bool.and_eq_true, Bool.and_eq_true] at hcontra
      obtain ⟨⟨⟨hid, htok⟩, _⟩, _⟩ := hcontra
      rw [List.any_eq_true] at htok
      obtain ⟨e, he, he'⟩ := htok
      exact absurd (by simpa using he') (habs u hu (by simpa using hid) e he)
    simp [authRefresh, hok, hnone]
  · intro tok store' h
    simp only [authRefresh] at h
    split at h
    · exact absurd h (by simp)
    · exact absurd h (by simp)
    · rename_i decoded hv
      obtain ⟨hd, hsig, hexp⟩ := jwtVerify_eq_ok hv
      subst hd
      split at h
      · exact absurd h (by simp)
      · rename_i u hf
        have hmem := List.mem_of_find?_eq_some hf
        have hpred := List.find?_some hf
        rw [Bool.and_eq_true, Bool.and_eq_true, Bool.and_eq_true] at hpred
        obtain ⟨⟨⟨hid, htok⟩, hty⟩, hexpy⟩ := hpred
        rw [List.any_eq_true] at htok hty hexpy
        obtain ⟨e1, he1, h1⟩ := htok
        obtain ⟨e2, he2, h2⟩ := hty
        obtain ⟨e3, he3, h3⟩ := hexpy
        by_cases hst : (u.status == "active") = true
        · exact ⟨u, hmem, by simpa using hid, by simpa using hst,
            ⟨e1, he1, by simpa using h1⟩, ⟨e2, he2, by simpa using h2⟩,
            ⟨e3, he3, by simpa using h3⟩⟩
        · rw [if_neg hst] at h
          exact absurd h (by simp)

/-- C2 amended witness: a signature-valid, unexpired refresh token whose
string appears in no stored record (the account's `tokens` array is
empty) is refused with 401 `INVALID_REFRESH_TOKEN`. -/
theorem refresh_requires_some_stored_token_witness :
    authRefresh [sampleUser] sampleCfg 1000
      (some { id := 7, email := "a@x.com", displayName := "Alice",
              exp := 2000, secret := 2 })
      = .failed ⟨401, "INVALID_REFRESH_TOKEN"⟩ :=
  (refresh_requires_some_stored_token [sampleUser] sampleCfg 1000
    { id := 7, email := "a@x.com", displayName := "Alice",
      exp := 2000, secret := 2 }).1 (by decide) (by decide) (by decide)

/-- C4: the `POST /api/records` chain runs rate limit, then shared
secret, then bearer token, each failure short-circuiting: a rate-limited
request fails 429 whatever the later credentials are; a request without
the shared secret fails 401 `MISSING_API_KEY` whatever bearer token it
carries (so no token verification can influence the outcome); a request
with the correct secret and a signature-valid but expired access token
reaches the bearer stage and fails 401 `TOKEN_EXPIRED`. -/
theorem gate_fixed_order_short_circuit (store : List User)
    (cfg : AuthConfig) (now hits : Nat) (t : Jwt) :
    (100 < hits → ∀ key auth body,
      postRecordsPipeline store cfg now hits key auth body
        = .error ⟨429, "RATE_LIMIT_EXCEEDED"⟩)
    ∧ (hits ≤ 100 → ∀ auth body,
      postRecordsPipeline store cfg now hits none auth body
        = .error ⟨401, "MISSING_API_KEY"⟩)
    ∧ (hits ≤ 100 → t.secret = cfg.jwtSecret → t.exp ≤ now → ∀ body,
      postRecordsPipeline store cfg now hits (some cfg.apiKey) (some t) body
        = .error ⟨401, "TOKEN_EXPIRED"⟩) := by
  refine ⟨?_, ?_, ?_⟩
  · intro h key auth body
    simp [postRecordsPipeline, Bind.bind, Except.bind, Functor.map, Except.map, dataLimiterCheck, h]
  · intro h auth body
    have h' : ¬ (100 < hits) := by omega
    simp [postRecordsPipeline, Bind.bind, Except.bind, Functor.map, Except.map, dataLimiterCheck, validateApiKey, h']
  · intro h hs he body
    have h' : ¬ (100 < hits) := by omega
    simp [postRecordsPipeline, Bind.bind, Except.bind, Functor.map, Except.map, dataLimiterCheck, validateApiKey,
      validateOAuthToken, jwtVerify, h', hs, he]

/-- C4 witness: with a correct shared secret, a concrete expired but
correctly signed access token fails the chain with `TOKEN_EXPIRED`. -/
theorem gate_fixed_order_short_circuit_witness :
    postRecordsPipeline [] sampleCfg 1000 1 (some sampleCfg.apiKey)
      (some { id := 7, email := "a@x.com", displayName := "Alice",
              exp := 500, secret := 1 }) emptyBody
      = .error ⟨401, "TOKEN_EXPIRED"⟩ :=
  (gate_fixed_order_short_circuit [] sampleCfg 1000 1
    { id := 7, email := "a@x.com", displayName := "Alice",
      exp := 500, secret := 1 }).2.2 (by decide) (by decide) (by decide)
    emptyBody

/-- C9 counterexample: an inactive (suspended) account presenting a
signature-valid, unexpired access token is refused with HTTP 401 and
code `INVALID_TOKEN`, not with HTTP 403 and an AccountInactive kind. -/
theorem inactive_account_not_403 :
    validateOAuthToken [sampleSuspendedUser] sampleCfg 1000
      (some { id := 8, email := "b@x.com", displayName := "Alice",
              exp := 2000, secret := 1 })
      = .error ⟨401, "INVALID_TOKEN"⟩
    ∧ (⟨401, "INVALID_TOKEN"⟩ : ApiResponse).status ≠ 403 := by
  decide

/-- C9 amended: each surfaced failure of the protected data pipeline
carries the status of its kind — 429 rate limit, 401 missing secret,
403 invalid secret, 401 missing token, 401 expired token, 400 validation
— except that an inactive account presenting an otherwise-valid token is
refused with HTTP 401 and the merged kind `INVALID_TOKEN` (shared with
account-not-found), not with 403. -/
theorem failure_status_by_kind (store : List User) (cfg : AuthConfig)
    (now hits : Nat) (k : String) (t : Jwt) (body : RecordBody) :
    (100 < hits → ∀ key auth,
      postRecordsPipeline store cfg now hits key auth body
        = .error ⟨429, "RATE_LIMIT_EXCEEDED"⟩)
    ∧ (hits ≤ 100 → ∀ auth,
      postRecordsPipeline store cfg now hits none auth body
        = .error ⟨401, "MISSING_API_KEY"⟩)
    ∧ (hits ≤ 100 → k ≠ cfg.apiKey → ∀ auth,
      postRecordsPipeline store cfg now hits (some k) auth body
        = .error ⟨403, "INVALID_API_KEY"⟩)
    ∧ (hits ≤ 100 →
      postRecordsPipeline store cfg now hits (some cfg.apiKey) none body
        = .error ⟨401, "MISSING_TOKEN"⟩)
    ∧ (hits ≤ 100 → t.secret = cfg.jwtSecret → t.exp ≤ now →
      postRecordsPipeline store cfg now hits (some cfg.apiKey) (some t) body
        = .error ⟨401, "TOKEN_EXPIRED"⟩)
    ∧ (t.secret = cfg.jwtSecret → now < t.exp →
      ∀ u, findById store t.id = some u → u.status ≠ "active" →
      validateOAuthToken store cfg now (some t) = .error ⟨401, "INVALID_TOKEN"⟩)
    ∧ (hits ≤ 100 → body.weather = none →
      ∀ u, validateOAuthToken store cfg now (some t) = .ok u →
      postRecordsPipeline store cfg now hits (some cfg.apiKey) (some t) body
        = .error ⟨400, "MISSING_REQUIRED_FIELDS"⟩) := by
  refine ⟨?_, ?_, ?_, ?_, ?_, ?_, ?_⟩
  · intro h key auth
    simp [postRecordsPipeline, Bind.bind, Except.bind, Functor.map, Except.map, dataLimiterCheck, h]
  · intro h auth
    have h' : ¬ (100 < hits) := by omega
    simp [postRecordsPipeline, Bind.bind, Except.bind, Functor.map, Except.map, dataLimiterCheck, validateApiKey, h']
  · intro h hk auth
    have h' : ¬ (100 < hits) := by omega
    simp [postRecordsPipeline, Bind.bind, Except.bind, Functor.map, Except.map, dataLimiterCheck, validateApiKey, h', hk]
  · intro h
    have h' : ¬ (100 < hits) := by omega
    simp [postRecordsPipeline, Bind.bind, Except.bind, Functor.map, Except.map, dataLimiterCheck, validateApiKey,
      validateOAuthToken, h']
  · intro h hs he
    have h' : ¬ (100 < hits) := by omega
    simp [postRecordsPipeline, Bind.bind, Except.bind, Functor.map, Except.map, dataLimiterCheck, validateApiKey,
      validateOAuthToken, jwtVerify, h', hs, he]
  · intro hs he u hfind hstat
    have hok := jwtVerify_ok_self hs he
    simp [validateOAuthToken, hok, hfind, hstat]
  · intro h hw u hvo
    have h' : ¬ (100 < hits) := by omega
    simp [postRecordsPipeline, Bind.bind, Except.bind, Functor.map, Except.map, dataLimiterCheck, validateApiKey, h',
      hvo, validateInputData, hw]

/-- C9 amended witness: a wrong shared secret evaluated concretely is
refused with 403 `INVALID_API_KEY`. -/
theorem failure_status_by_kind_witness :
    postRecordsPipeline [] sampleCfg 1000 1 (some "wrong-key") none emptyBody
      = .error ⟨403, "INVALID_API_KEY"⟩ :=
  (failure_status_by_kind [] sampleCfg 1000 1 "wrong-key"
    { id := 7, email := "a@x.com", displayName := "Alice",
      exp := 500, secret := 1 } emptyBody).2.2.1 (by decide) (by decide) none

/-- C1: the verify callback resolves an identity assertion in the fixed
order of its three branches. A (google, subject-id) match stamps that
link's last login and returns the owning account with `isNewUser=false`;
otherwise an email match appends a new identity link to the existing
account and returns it with `isNewUser=false`, leaving the number of
accounts unchanged; otherwise a fresh account is created with status
`active`, exactly the one new identity link and zero-valued stats, and
returned with `isNewUser=true`. -/
theorem resolve_fixed_order (store : List User) (now freshId : Nat)
    (pid em nm : String) (pic : Option String) :
    (∀ u, findByOAuthProvider store "google" pid = some u →
      googleVerify store now freshId pid em nm pic =
        (saveUser store (touchGoogleLogin u pid now),
         .ok (touchGoogleLogin u pid now) false)
      ∧ (touchGoogleLogin u pid now).id = u.id
      ∧ ((touchGoogleLogin u pid now).providers.find? (isGoogleLink pid)).map
          ProviderLink.lastLogin = some now)
    ∧ (findByOAuthProvider store "google" pid = none →
      ∀ u, findOneByEmail store em = some u →
      ∃ u', googleVerify store now freshId pid em nm pic =
          (saveUser store u', .ok u' false)
        ∧ u'.id = u.id
        ∧ u'.providers = u.providers ++ [mkGoogleLink pid em nm pic now]
        ∧ (saveUser store u').length = store.length)
    ∧ (findByOAuthProvider store "google" pid = none →
      findOneByEmail store em = none →
      googleVerify store now freshId pid em nm pic =
        (store ++ [newGoogleUser freshId pid em nm pic now],
         .ok (newGoogleUser freshId pid em nm pic now) true)
      ∧ (newGoogleUser freshId pid em nm pic now).status = "active"
      ∧ (newGoogleUser freshId pid em nm pic now).providers
          = [mkGoogleLink pid em nm pic now]
      ∧ (newGoogleUser freshId pid em nm pic now).stats = zeroStats) := by
  refine ⟨?_, ?_, ?_⟩
  · intro u hfind
    have hany0 := List.find?_some hfind
    have hany : u.providers.any (isGoogleLink pid) = true := by
      simpa [isGoogleLink] using hany0
    refine ⟨?_, rfl, ?_⟩
    · simp [googleVerify, hfind, hany]
    · have hupd := updateGoogleLastLogin_find? u.providers pid now hany
      simpa [touchGoogleLogin] using hupd
  · intro h1 u h2
    refine ⟨{ u with
        providers := u.providers ++ [mkGoogleLink pid em nm pic now],
        lastActive := now }, ?_, rfl, rfl, ?_⟩
    · simp [googleVerify, h1, h2]
    · simp [saveUser]
  · intro h1 h2
    refine ⟨?_, rfl, rfl, rfl⟩
    simp [googleVerify, h1, h2]

/-- C1 witness: resolving a never-seen assertion against the empty store
creates exactly the new account. -/
theorem resolve_fixed_order_witness :
    googleVerify [] 1000 42 "g1" "a@x.com" "Alice" none =
      ([newGoogleUser 42 "g1" "a@x.com" "Alice" none 1000],
       .ok (newGoogleUser 42 "g1" "a@x.com" "Alice" none 1000) true) := by
  have h := (resolve_fixed_order [] 1000 42 "g1" "a@x.com" "Alice" none).2.2
    rfl rfl
  simpa using h.1

/-- C3 (code evaluated at the failing input): when the lookup snapshot is
empty but by save time a concurrent resolution has inserted an account
with the same email, the unique-index violation is surfaced as
`done(error, null)` — the raced callback answers `.err` instead of
retrying the email lookup and linking. -/
theorem conflict_surfaced_not_retried :
    googleVerifyRaced [] [sampleUser] 1000 43 "g1" "a@x.com" "Alice" none
      = ([sampleUser], .err)
    ∧ ([sampleUser], ResolveResult.err)
        ≠ ([sampleUser], .ok sampleUser false) := by
  decide

/-- C7: revoking all refresh tokens via `POST /auth/logout` without a
body token is idempotent: the first call succeeds and leaves the
account's `tokens` array empty, and an immediately repeated call
succeeds while changing nothing (it removes zero records). -/
theorem revokeAll_idempotent (store : List User) (uid : Nat) (u : User)
    (h : findById store uid = some u) :
    (logoutHandler store uid none).2 = true
    ∧ (∃ u', findById (logoutHandler store uid none).1 uid = some u'
        ∧ u'.tokens = [])
    ∧ logoutHandler (logoutHandler store uid none).1 uid none
        = ((logoutHandler store uid none).1, true) := by
  refine ⟨rfl, ?_, ?_⟩
  · have hf : findById (store.map (clearAllTokens uid)) uid
        = (findById store uid).map (clearAllTokens uid) := by
      unfold findById
      exact find?_map_of_pred_comm store (clearAllTokens uid)
        (fun v => v.id == uid) (clearAllTokens_pred uid)
    refine ⟨clearAllTokens uid u, ?_, ?_⟩
    · simp only [logoutHandler]
      rw [hf, h]
      rfl
    · have hid : (u.id == uid) = true := by simpa using List.find?_some h
      unfold clearAllTokens
      rw [if_pos hid]
  · simp only [logoutHandler]
    rw [List.map_map]
    have : store.map (clearAllTokens uid ∘ clearAllTokens uid)
        = store.map (clearAllTokens uid) := by
      apply List.map_congr_left
      intro v _
      exact clearAllTokens_idem uid v
    rw [this]

/-- C7 witness: the repeated revoke-all evaluated on a concrete account
holding one refresh record. -/
theorem revokeAll_idempotent_witness :
    logoutHandler (logoutHandler [sampleTokUser] 7 none).1 7 none
      = ((logoutHandler [sampleTokUser] 7 none).1, true) :=
  (revokeAll_idempotent [sampleTokUser] 7 sampleTokUser (by decide)).2.2

/-- C10: `addRecord` is idempotent on an already-referenced record id —
the document (records list, `stats.totalRecords`, `stats.lastRecordDate`
included) is returned unchanged — while a not-yet-referenced id is
appended once and bumps `stats.totalRecords` by exactly one, stamping
`stats.lastRecordDate`. -/
theorem addRecord_idempotent (u : User) (rid now : Nat) :
    (rid ∈ u.records → addRecord u rid now = u)
    ∧ (rid ∉ u.records →
        (addRecord u rid now).records = u.records ++ [rid]
        ∧ (addRecord u rid now).stats.totalRecords = u.stats.totalRecords + 1
        ∧ (addRecord u rid now).stats.lastRecordDate = some now) := by
  constructor
  · intro h
    have hc : u.records.contains rid = true := by simpa using h
    unfold addRecord
    rw [if_pos hc]
  · intro h
    have hc : ¬ (u.records.contains rid = true) := by simpa using h
    unfold addRecord
    rw [if_neg hc]
    exact ⟨rfl, rfl, rfl⟩

/-- C10 witness: both effects of the non-member branch evaluated on a
concrete account with no records. -/
theorem addRecord_idempotent_witness :
    (addRecord sampleUser 5 1000).records = sampleUser.records ++ [5]
    ∧ (addRecord sampleUser 5 1000).stats.totalRecords
        = sampleUser.stats.totalRecords + 1
    ∧ (addRecord sampleUser 5 1000).stats.lastRecordDate = some 1000 :=
  (addRecord_idempotent sampleUser 5 1000).2 (by decide)

end GeoVerse
